import Mathlib

/-!
Verification development for the Studydude backend (`src/server.js`), a
single-file Express proxy in front of the Gemini `generateContent` API.
The JavaScript handlers are shallowly embedded: JSON request/response
bodies become Lean structures with `Option` fields for possibly-absent
values, JavaScript truthiness on strings becomes `truthyStr`, handler
control flow up to the outbound `fetch` becomes a step function into a
sum type (`respond` for an early HTTP response, `callUpstream` for the
request body handed to `fetch`), and the post-`fetch` code becomes a
function from the upstream status and decoded body to the final HTTP
response.  A thrown `TypeError` that escapes to a route-level `catch`
is modelled explicitly (`GenExtract.thrown`).  `JSON.parse` is modelled
by an executable recursive-descent parser `parseJson` over the JSON
fragment the adapter exchanges (strings with the standard escapes,
integer numbers, arrays, objects, booleans, null); floating-point
fractions and the fixed `generationConfig` record are outside the model.
-/

namespace Studydude

/-- JavaScript truthiness of a possibly-absent string: `undefined`,
`null` and the empty string are falsy. -/
def truthyStr : Option String → Bool
  | none => false
  | some s => s ≠ ""

/-- JavaScript `a || d` for a possibly-absent string `a`: the default is
taken when `a` is absent or empty (line 126 of `server.js`). -/
def jsOr (a : Option String) (d : String) : String :=
  match a with
  | none => d
  | some s => if s = "" then d else s

/-- JavaScript string interpolation of a possibly-absent value:
`undefined` renders as the literal string `undefined`. -/
def jsRender (a : Option String) : String :=
  match a with
  | none => "undefined"
  | some s => s

/-! ## Upstream response model (Gemini `generateContent` reply) -/

/-- One part of a candidate's content; `text` may be absent. -/
structure RespPart where
  text : Option String
  deriving Repr, DecidableEq

/-- A candidate's `content`; the `parts` array may be absent. -/
structure Content where
  parts : Option (List RespPart)
  deriving Repr, DecidableEq

/-- One upstream candidate: `content` and `finishReason` may be absent. -/
structure Candidate where
  content : Option Content
  finishReason : Option String
  deriving Repr, DecidableEq

/-- The decoded upstream response body; `candidates` may be absent.  A
`none` at the outer `Option` models `data` itself being `null`. -/
structure UResp where
  candidates : Option (List Candidate)
  deriving Repr, DecidableEq

/-- The `candidates` array of a possibly-null decoded body. -/
def candidatesOf (data : Option UResp) : Option (List Candidate) :=
  match data with
  | none => none
  | some d => d.candidates

/-- The guard `candidate.content && candidate.content.parts &&
candidate.content.parts.length > 0` together with the subsequent
`parts[0]` access (lines 125-126 of `server.js`): the first part when
the chain holds, `none` otherwise. -/
def firstPart (c : Candidate) : Option RespPart :=
  match c.content with
  | none => none
  | some ct =>
    match ct.parts with
    | some (p :: _) => some p
    | _ => none

/-- The `/api/chat` text extraction, lines 121-130 of `server.js`:
`aiText` starts as `"No response from AI"`, is replaced by the first
part's text (with `"Empty response from AI"` for an absent or empty
text) when the first candidate has non-empty `content.parts`, else by
`"AI response blocked: <finishReason>"` when `candidate.finishReason`
is truthy. -/
def extractText (data : Option UResp) : String :=
  match data with
  | none => "No response from AI"
  | some d =>
    match d.candidates with
    | some (c :: _) =>
      match firstPart c with
      | some p => jsOr p.text "Empty response from AI"
      | none =>
        match c.finishReason with
        | some r => if r = "" then "No response from AI" else "AI response blocked: " ++ r
        | none => "No response from AI"
    | _ => "No response from AI"

/-! ## Request model and the handler phase before `fetch` -/

/-- One entry of the client-supplied conversation history
(`entry.sender`, `entry.content`). -/
structure ChatTurn where
  sender : String
  content : String
  deriving Repr, DecidableEq

/-- One part of an upstream request turn. -/
structure ReqPart where
  text : String
  deriving Repr, DecidableEq

/-- One turn of the upstream `contents` array. -/
structure UpstreamTurn where
  role : String
  parts : List ReqPart
  deriving Repr, DecidableEq

/-- The tutor-style instruction template wrapped around the current
message, lines 78-87 of `server.js`. -/
def chatTemplate (topic message : String) : String :=
  "You are an AI tutor. \nAnswer in a style similar to ChatGPT:\n- Write clear, natural sentences.\n- Use short paragraphs and bullet points where helpful.\n- Highlight important terms in **bold**.\n- Keep answers concise (max 6–8 sentences unless user asks for more).\n- Tone: professional but friendly for students.\n\nTopic: " ++ topic ++ "\nUser Question: " ++ message

/-- History-entry mapping, lines 69-72 of `server.js`: sender `user`
becomes role `user`, anything else becomes role `model`. -/
def toUpstreamTurn (e : ChatTurn) : UpstreamTurn :=
  { role := if e.sender = "user" then "user" else "model",
    parts := [{ text := e.content }] }

/-- The `contents` array built by the `/api/chat` handler, lines 69-89
of `server.js`: the mapped history followed by the templated current
user turn. -/
def chatContents (message topic : String) (history : List ChatTurn) : List UpstreamTurn :=
  history.map toUpstreamTurn ++ [{ role := "user", parts := [{ text := chatTemplate topic message }] }]

/-- The `sender: content` per-line flattening of the history used by the
flashcard and quiz prompts (lines 165 and 240 of `server.js`). -/
def historyBlock (h : List ChatTurn) : String :=
  String.intercalate "\n" (h.map fun m => m.sender ++ ": " ++ m.content)

/-- The flashcard prompt template, lines 162-172 of `server.js`. -/
def flashPrompt (topic : String) (h : List ChatTurn) : String :=
  "Based on the topic \"" ++ topic ++ "\" and the following conversation history, generate 5-7 flashcards. Each flashcard should have a \"question\" and an \"answer\". Format the output as a JSON array of objects. Ensure the JSON is valid and directly parsable.\n\nConversation History:\n" ++ historyBlock h ++ "\n\nExample JSON format:\n[\n    \x7b\"question\": \"What is X?\", \"answer\": \"Y is the definition.\"\x7d,\n    \x7b\"question\": \"Key concept of Z?\", \"answer\": \"It involves A, B, and C.\"\x7d\n]\n"

/-- The quiz prompt template, lines 237-255 of `server.js`. -/
def quizPrompt (topic : String) (h : List ChatTurn) : String :=
  "Based on the topic \"" ++ topic ++ "\" and the following conversation history, generate 3-5 multiple-choice quiz questions. Each question should have a \"question\", an array of \"options\", and the \"correctAnswer\" (the 0-based index of the correct option). Format the output as a JSON array of objects. Ensure the JSON is valid and directly parsable.\n\nConversation History:\n" ++ historyBlock h ++ "\n\nExample JSON format:\n[\n    \x7b\n        \"question\": \"What is the capital of France?\",\n        \"options\": [\"Berlin\", \"Madrid\", \"Paris\", \"Rome\"],\n        \"correctAnswer\": 2\n    \x7d,\n    \x7b\n        \"question\": \"Which planet is known as the Red Planet?\",\n        \"options\": [\"Earth\", \"Mars\", \"Jupiter\", \"Venus\"],\n        \"correctAnswer\": 1\n    \x7d\n]\n"

/-- The `/api/chat` request body fields destructured at line 47 of
`server.js`; each may be absent. -/
structure ChatRequest where
  message : Option String
  topic : Option String
  history : Option (List ChatTurn)
  deriving Repr

/-- What the `/api/chat` handler does before any network traffic:
either it responds immediately (status, `error` field, `text` field) or
it reaches `fetch` with the given `contents`. -/
inductive ChatStep where
  | respond (status : Nat) (error : Option String) (text : Option String)
  | callUpstream (contents : List UpstreamTurn)
  deriving Repr, DecidableEq

/-- The `/api/chat` handler up to the outbound `fetch`, lines 43-105 of
`server.js`: falsy `message` gives the 400 validation response, falsy
`GEMINI_API_KEY` gives the 500 configuration response, an absent
`history` makes `history.map` throw a `TypeError` that the route-level
`catch` (lines 135-142) turns into the generic 500, and otherwise the
`contents` array is built and handed to `fetch`. -/
def chatHandler (req : ChatRequest) (apiKey : Option String) : ChatStep :=
  if ¬ truthyStr req.message then
    .respond 400 (some "Missing message in request body")
      (some "Please provide a message to generate AI response")
  else if ¬ truthyStr apiKey then
    .respond 500 (some "API key not configured")
      (some "Server configuration error. Please contact administrator.")
  else
    match req.history with
    | none =>
      .respond 500 (some "Internal server error")
        (some "An error occurred while processing your request. Please try again.")
    | some h =>
      .callUpstream (chatContents (jsRender req.message) (jsRender req.topic) h)

/-- The request body fields of the two artifact endpoints, destructured
at lines 149 and 224 of `server.js`. -/
structure GenRequest where
  topic : Option String
  conversationHistory : Option (List ChatTurn)
  deriving Repr

/-- What an artifact handler does before any network traffic: an
immediate response (status and `error` field) or the `fetch` call. -/
inductive GenStep where
  | respond (status : Nat) (error : String)
  | callUpstream (contents : List UpstreamTurn)
  deriving Repr, DecidableEq

/-- The `/api/generate-flashcards` handler up to `fetch`, lines 146-186
of `server.js`: falsy `topic` gives the 400, falsy key the 500, an
absent `conversationHistory` makes `.map` throw into the route-level
`catch` (generic 500, line 216), else the single-turn prompt is built. -/
def flashHandler (req : GenRequest) (apiKey : Option String) : GenStep :=
  if ¬ truthyStr req.topic then
    .respond 400 "Topic is required to generate flashcards."
  else if ¬ truthyStr apiKey then
    .respond 500 "API key not configured."
  else
    match req.conversationHistory with
    | none => .respond 500 "An error occurred while generating flashcards."
    | some h =>
      .callUpstream [{ role := "user", parts := [{ text := flashPrompt (jsRender req.topic) h }] }]

/-- The `/api/generate-quiz` handler up to `fetch`, lines 221-269 of
`server.js`, structurally identical to the flashcard handler. -/
def quizHandler (req : GenRequest) (apiKey : Option String) : GenStep :=
  if ¬ truthyStr req.topic then
    .respond 400 "Topic is required to generate quiz questions."
  else if ¬ truthyStr apiKey then
    .respond 500 "API key not configured."
  else
    match req.conversationHistory with
    | none => .respond 500 "An error occurred while generating quiz questions."
    | some h =>
      .callUpstream [{ role := "user", parts := [{ text := quizPrompt (jsRender req.topic) h }] }]

/-! ## JSON values and a model of `JSON.parse`

`JSON.parse` is modelled by an executable recursive-descent parser over
the JSON fragment the adapter exchanges: strings with the standard
escapes (including `\uXXXX`), integer numbers, arrays, objects, `true`,
`false`, `null`, and insignificant whitespace.  Fractional and exponent
number forms are outside the model. -/

/-- A parsed JSON value. -/
inductive Json where
  | null
  | bool (b : Bool)
  | num (n : Int)
  | str (s : String)
  | arr (xs : List Json)
  | obj (members : List (String × Json))
  deriving Repr

/-- Drop leading JSON whitespace. -/
def skipWs : List Char → List Char
  | [] => []
  | c :: tl => if c = ' ' ∨ c = '\n' ∨ c = '\t' ∨ c = '\r' then skipWs tl else c :: tl

/-- Value of one hexadecimal digit. -/
def hexVal (c : Char) : Option Nat :=
  if c.isDigit then some (c.toNat - 48)
  else
    let lower := c.toLower
    if 'a' ≤ lower ∧ lower ≤ 'f' then some (lower.toNat - 87) else none

/-- The single-character JSON string escapes. -/
def escChar (e : Char) : Option Char :=
  if e = 'n' then some '\n'
  else if e = 't' then some '\t'
  else if e = 'r' then some '\r'
  else if e = 'b' then some (Char.ofNat 8)
  else if e = 'f' then some (Char.ofNat 12)
  else if e = '"' ∨ e = '\\' ∨ e = '/' then some e
  else none

/-- Parse the body of a JSON string after the opening quote, returning
the decoded characters and the remainder after the closing quote. -/
def parseStringAux : List Char → Option (List Char × List Char)
  | [] => none
  | '"' :: rest => some ([], rest)
  | '\\' :: 'u' :: h1 :: h2 :: h3 :: h4 :: rest =>
    match hexVal h1, hexVal h2, hexVal h3, hexVal h4 with
    | some v1, some v2, some v3, some v4 =>
      match parseStringAux rest with
      | some (cs, r) => some (Char.ofNat (((v1 * 16 + v2) * 16 + v3) * 16 + v4) :: cs, r)
      | none => none
    | _, _, _, _ => none
  | '\\' :: e :: rest =>
    match escChar e with
    | some c =>
      match parseStringAux rest with
      | some (cs, r) => some (c :: cs, r)
      | none => none
    | none => none
  | c :: rest =>
    match parseStringAux rest with
    | some (cs, r) => some (c :: cs, r)
    | none => none

/-- Accumulate a run of decimal digits. -/
def parseDigitsAux (acc : Nat) : List Char → Nat × List Char
  | [] => (acc, [])
  | c :: cs =>
    if c.isDigit then parseDigitsAux (acc * 10 + (c.toNat - 48)) cs else (acc, c :: cs)

/-- Parse an (integer) JSON number with optional leading minus. -/
def parseNumber (s : List Char) : Option (Int × List Char) :=
  match s with
  | '-' :: c :: rest =>
    if c.isDigit then
      let p := parseDigitsAux 0 (c :: rest)
      some (-(p.1 : Int), p.2)
    else none
  | c :: rest =>
    if c.isDigit then
      let p := parseDigitsAux 0 (c :: rest)
      some ((p.1 : Int), p.2)
    else none
  | [] => none

mutual

/-- Parse one JSON value, fuel-indexed. -/
def parseVal : Nat → List Char → Option (Json × List Char)
  | 0, _ => none
  | Nat.succ fuel, s =>
    match skipWs s with
    | '"' :: r =>
      match parseStringAux r with
      | some (cs, rest) => some (.str (String.mk cs), rest)
      | none => none
    | '[' :: r =>
      match skipWs r with
      | ']' :: rr => some (.arr [], rr)
      | _ =>
        match parseItems fuel r with
        | some (xs, rest) => some (.arr xs, rest)
        | none => none
    | '\x7b' :: r =>
      match skipWs r with
      | '\x7d' :: rr => some (.obj [], rr)
      | _ =>
        match parseMembers fuel r with
        | some (ms, rest) => some (.obj ms, rest)
        | none => none
    | r =>
      if ("true".toList).isPrefixOf r then some (.bool true, r.drop 4)
      else if ("false".toList).isPrefixOf r then some (.bool false, r.drop 5)
      else if ("null".toList).isPrefixOf r then some (.null, r.drop 4)
      else
        match parseNumber r with
        | some (n, rest) => some (.num n, rest)
        | none => none

/-- Parse the comma-separated elements of a non-empty JSON array up to
the closing bracket. -/
def parseItems : Nat → List Char → Option (List Json × List Char)
  | 0, _ => none
  | Nat.succ fuel, s =>
    match parseVal fuel s with
    | none => none
    | some (v, r) =>
      match skipWs r with
      | ',' :: rr =>
        match parseItems fuel rr with
        | some (xs, rest) => some (v :: xs, rest)
        | none => none
      | ']' :: rr => some ([v], rr)
      | _ => none

/-- Parse the comma-separated members of a non-empty JSON object up to
the closing brace. -/
def parseMembers : Nat → List Char → Option (List (String × Json) × List Char)
  | 0, _ => none
  | Nat.succ fuel, s =>
    match skipWs s with
    | '"' :: r =>
      match parseStringAux r with
      | none => none
      | some (key, r2) =>
        match skipWs r2 with
        | ':' :: r3 =>
          match parseVal fuel r3 with
          | none => none
          | some (v, r4) =>
            match skipWs r4 with
            | ',' :: r5 =>
              match parseMembers fuel r5 with
              | some (ms, rest) => some ((String.mk key, v) :: ms, rest)
              | none => none
            | '\x7d' :: r5 => some ([(String.mk key, v)], r5)
            | _ => none
        | _ => none
    | _ => none

end

/-- The model of `JSON.parse`: parse one value and require only
whitespace after it. -/
def parseJson (t : List Char) : Option Json :=
  match parseVal (2 * t.length + 2) t with
  | some (j, rest) => if skipWs rest = [] then some j else none
  | none => none

/-! ## The fenced-block search and the two-stage extraction -/

/-- Index of the first occurrence of `pat` in a character list. -/
def findSub (pat : List Char) : List Char → Option Nat
  | [] => if pat.isEmpty then some 0 else none
  | c :: tl =>
    if pat.isPrefixOf (c :: tl) then some 0
    else (findSub pat tl).map (· + 1)

/-- The opening delimiter matched by the fence regular expression at
lines 200 and 282 of `server.js`. -/
def fenceOpen : List Char := "```json\n".toList

/-- The closing delimiter of the fence regular expression. -/
def fenceClose : List Char := "\n```".toList

/-- The capture group of `aiResponseText.match` against the fence
regular expression: the leftmost occurrence of the opening delimiter
followed lazily by the nearest closing delimiter.  (If the first
opening delimiter has no closing delimiter anywhere after it, no later
one does either, so the whole match fails.) -/
def jsonBlockMatch (t : List Char) : Option (List Char) :=
  match findSub fenceOpen t with
  | none => none
  | some i =>
    match findSub fenceClose ((t.drop i).drop fenceOpen.length) with
    | none => none
    | some j => some (((t.drop i).drop fenceOpen.length).take j)

/-- The two-stage extraction at lines 200-204 (and 282-286) of
`server.js`: parse the fenced capture group when the match succeeded
with a truthy (non-empty) group, else parse the entire raw text. -/
def extractStructured (t : List Char) : Option Json :=
  match jsonBlockMatch t with
  | some g => if g.isEmpty then parseJson t else parseJson g
  | none => parseJson t

/-! ## Artifact-endpoint response extraction -/

/-- Outcome of an artifact endpoint's handling of a decoded 2xx body:
a value for `res.json`, the inner-catch malformed-output 500, or a
`TypeError` thrown outside the inner `try` (line 197 resp. 280),
reaching the route-level `catch` and its generic 500. -/
inductive GenExtract where
  | ok (value : Json)
  | malformed
  | thrown
  deriving Repr

/-- The `/api/generate-flashcards` extraction, lines 194-210 of
`server.js`.  `flashcards` starts as `[]`; with a non-empty
`candidates`, `data.candidates[0].content.parts[0].text` is read
unguarded, so an absent `content`, absent `parts` or empty `parts`
throws a `TypeError` outside the inner `try`; an absent `text` makes
`aiResponseText.match` throw inside the `try`, landing in the
`parseError` catch alongside genuine parse failures. -/
def flashExtract (data : Option UResp) : GenExtract :=
  match data with
  | none => .ok (.arr [])
  | some d =>
    match d.candidates with
    | some (c :: _) =>
      match c.content with
      | none => .thrown
      | some ct =>
        match ct.parts with
        | some (p :: _) =>
          match p.text with
          | none => .malformed
          | some t =>
            match extractStructured t.toList with
            | some j => .ok j
            | none => .malformed
        | _ => .thrown
    | _ => .ok (.arr [])

/-- The `/api/generate-quiz` extraction, lines 277-292 of `server.js`,
structurally identical to the flashcard extraction. -/
def quizExtract (data : Option UResp) : GenExtract :=
  match data with
  | none => .ok (.arr [])
  | some d =>
    match d.candidates with
    | some (c :: _) =>
      match c.content with
      | none => .thrown
      | some ct =>
        match ct.parts with
        | some (p :: _) =>
          match p.text with
          | none => .malformed
          | some t =>
            match extractStructured t.toList with
            | some j => .ok j
            | none => .malformed
        | _ => .thrown
    | _ => .ok (.arr [])

/-! ## The handler phase after `fetch` -/

/-- `response.ok` of the fetch API: status in the 2xx range. -/
def statusOk (status : Nat) : Bool := 200 ≤ status ∧ status ≤ 299

/-- The final HTTP response of `/api/chat` as a record of its status
and the `response`/`error`/`text` body fields (absent fields are
`none`). -/
structure ChatHttpResponse where
  status : Nat
  response : Option String
  error : Option String
  text : Option String
  deriving Repr, DecidableEq

/-- The `/api/chat` code after `fetch` returns, lines 107-133 of
`server.js`: a non-ok status is relayed with the upstream-error body,
an ok status runs the text extraction and answers 200. -/
def chatUpstreamPhase (status : Nat) (data : Option UResp) : ChatHttpResponse :=
  if statusOk status then
    { status := 200, response := some (extractText data), error := none, text := none }
  else
    { status := status, response := none,
      error := some ("Gemini API error: " ++ toString status),
      text := some "Sorry, the AI service is temporarily unavailable. Please try again later." }

/-- The final HTTP response of an artifact endpoint: status, the
`flashcards`/`quizQuestions` payload, and the `error`/`text` body
fields (absent fields are `none`). -/
structure GenHttpResponse where
  status : Nat
  payload : Option Json
  error : Option String
  text : Option String
  deriving Repr

/-- The `/api/generate-flashcards` code after `fetch` returns, lines
188-217 of `server.js`: a non-ok status is relayed with an error-only
body, an ok status runs the extraction; a thrown `TypeError` reaches
the route-level `catch` and its generic 500. -/
def flashUpstreamPhase (status : Nat) (data : Option UResp) : GenHttpResponse :=
  if statusOk status then
    match flashExtract data with
    | .ok j => { status := 200, payload := some j, error := none, text := none }
    | .malformed =>
      { status := 500, payload := none,
        error := some "AI generated malformed flashcards. Please try again.", text := none }
    | .thrown =>
      { status := 500, payload := none,
        error := some "An error occurred while generating flashcards.", text := none }
  else
    { status := status, payload := none,
      error := some ("Gemini API error: " ++ toString status), text := none }

/-- The `/api/generate-quiz` code after `fetch` returns, lines 271-299
of `server.js`. -/
def quizUpstreamPhase (status : Nat) (data : Option UResp) : GenHttpResponse :=
  if statusOk status then
    match quizExtract data with
    | .ok j => { status := 200, payload := some j, error := none, text := none }
    | .malformed =>
      { status := 500, payload := none,
        error := some "AI generated malformed quiz questions. Please try again.", text := none }
    | .thrown =>
      { status := 500, payload := none,
        error := some "An error occurred while generating quiz questions.", text := none }
  else
    { status := status, payload := none,
      error := some ("Gemini API error: " ++ toString status), text := none }

/-! ## Theorems -/

/-- An absent value is falsy. -/
theorem truthyStr_none : truthyStr none = false := rfl

/-- C1: the `/api/chat` text extraction is a total function (its Lean
type returns `String` on every decoded upstream body, so it never
throws) following the exact priority chain: a first candidate with
non-empty `content.parts` yields the first part's text, with the
literal `Empty response from AI` when that text is absent or empty; a
first candidate without such parts but carrying a (truthy, i.e.
non-empty) `finishReason` yields `AI response blocked: <finishReason>`;
every remaining shape yields `No response from AI`. -/
theorem extractText_priority_chain (data : Option UResp) :
    (∀ c cs p, candidatesOf data = some (c :: cs) → firstPart c = some p →
      extractText data = jsOr p.text "Empty response from AI")
    ∧ (∀ c cs r, candidatesOf data = some (c :: cs) → firstPart c = none →
      c.finishReason = some r → r ≠ "" →
      extractText data = "AI response blocked: " ++ r)
    ∧ (∀ c cs, candidatesOf data = some (c :: cs) → firstPart c = none →
      truthyStr c.finishReason = false →
      extractText data = "No response from AI")
    ∧ (candidatesOf data = none ∨ candidatesOf data = some [] →
      extractText data = "No response from AI") := by
  refine ⟨?g1, ?g2, ?g3, ?g4⟩
  · intro c cs p hcand hp
    cases data with
    | none => simp [candidatesOf] at hcand
    | some d =>
      simp only [candidatesOf] at hcand
      simp [extractText, hcand, hp]
  · intro c cs r hcand hp hr hne
    cases data with
    | none => simp [candidatesOf] at hcand
    | some d =>
      simp only [candidatesOf] at hcand
      simp [extractText, hcand, hp, hr, hne]
  · intro c cs hcand hp hfr
    cases data with
    | none => simp [candidatesOf] at hcand
    | some d =>
      simp only [candidatesOf] at hcand
      cases hfr' : c.finishReason with
      | none => simp [extractText, hcand, hp, hfr']
      | some r =>
        rw [hfr'] at hfr
        simp only [truthyStr, decide_eq_false_iff_not, ne_eq, not_not] at hfr
        simp [extractText, hcand, hp, hfr', hfr]
  · intro hcand
    cases data with
    | none => simp [extractText]
    | some d =>
      simp only [candidatesOf] at hcand
      rcases hcand with h | h <;> simp [extractText, h]

/-- C2 counterexample: a 2xx upstream body whose first candidate has an
empty `parts` array (and one whose candidate has no `content` at all)
makes the flashcard and quiz extractions throw a `TypeError` at the
unguarded `data.candidates[0].content.parts[0].text`, refuting the
claim that each endpoint's extraction never throws. -/
theorem genExtract_throws_cex :
    flashExtract (some ⟨some [⟨some ⟨some []⟩, none⟩]⟩) = .thrown
    ∧ quizExtract (some ⟨some [⟨none, some "STOP"⟩]⟩) = .thrown :=
  ⟨rfl, rfl⟩

/-- C2 amended: the `/api/chat` extraction is total (`extractText`
returns a string on every decoded body), but the flashcard and quiz
extractions throw exactly when `candidates` is non-empty and the first
candidate lacks a first content part (no `content`, no `parts`, or
empty `parts`); in every other case they produce a defined result. -/
theorem genExtract_thrown_iff (data : Option UResp) :
    (flashExtract data = .thrown ↔
      ∃ c cs, candidatesOf data = some (c :: cs) ∧ firstPart c = none)
    ∧ (quizExtract data = .thrown ↔
      ∃ c cs, candidatesOf data = some (c :: cs) ∧ firstPart c = none) := by
  cases data with
  | none => simp [flashExtract, quizExtract, candidatesOf]
  | some d =>
    cases hc : d.candidates with
    | none => simp [flashExtract, quizExtract, candidatesOf, hc]
    | some l =>
      cases l with
      | nil => simp [flashExtract, quizExtract, candidatesOf, hc]
      | cons c rest =>
        cases hct : c.content with
        | none => simp [flashExtract, quizExtract, candidatesOf, firstPart, hc, hct]
        | some ct =>
          cases hp : ct.parts with
          | none => simp [flashExtract, quizExtract, candidatesOf, firstPart, hc, hct, hp]
          | some ps =>
            cases ps with
            | nil => simp [flashExtract, quizExtract, candidatesOf, firstPart, hc, hct, hp]
            | cons p ptl =>
              cases htx : p.text with
              | none =>
                simp [flashExtract, quizExtract, candidatesOf, firstPart, hc, hct, hp, htx]
              | some t =>
                cases hx : extractStructured t.data <;>
                  simp [flashExtract, quizExtract, candidatesOf, firstPart, hc, hct, hp, htx,
                    String.toList, hx]

/-- C3: for a non-empty message and a supplied history, the `contents`
array built by `/api/chat` is non-empty, has one turn per history entry
plus the current turn, maps each history entry in order to role `user`
for sender `user` and role `model` otherwise (carrying the entry's
content as the single part), and ends with a `user` turn carrying the
templated current message with the topic. -/
theorem chatContents_shape (message topic : String) (history : List ChatTurn)
    (hm : message ≠ "") :
    chatContents message topic history ≠ []
    ∧ (chatContents message topic history).length = history.length + 1
    ∧ (∀ i, i < history.length →
        (chatContents message topic history).getD i ⟨"", []⟩ =
          { role := if (history.getD i ⟨"", ""⟩).sender = "user" then "user" else "model",
            parts := [{ text := (history.getD i ⟨"", ""⟩).content }] })
    ∧ (chatContents message topic history).getD history.length ⟨"", []⟩ =
        { role := "user", parts := [{ text := chatTemplate topic message }] } := by
  refine ⟨by simp [chatContents], by simp [chatContents], ?_, ?_⟩
  · intro i hi
    have hlen : i < (history.map toUpstreamTurn).length := by simpa using hi
    rw [chatContents, List.getD_append _ _ _ _ hlen]
    rw [List.getD_eq_getElem?_getD, List.getD_eq_getElem?_getD, List.getElem?_map]
    rw [List.getElem?_eq_getElem (by simpa using hi)]
    simp [toUpstreamTurn, List.getD]
  · rw [chatContents, List.getD_eq_getElem?_getD]
    rw [show history.length = (history.map toUpstreamTurn).length + 0 by simp]
    rw [List.getElem?_append_right (by simp)]
    simp

/-- C3 witness: a two-entry history with a non-empty message. -/
theorem chatContents_shape_witness :
    chatContents "What is X?" "Algebra" [⟨"user", "hi"⟩, ⟨"ai", "hello"⟩] ≠ []
    ∧ (chatContents "What is X?" "Algebra" [⟨"user", "hi"⟩, ⟨"ai", "hello"⟩]).getD 1 ⟨"", []⟩ =
        { role := "model", parts := [{ text := "hello" }] }
    ∧ (chatContents "What is X?" "Algebra" [⟨"user", "hi"⟩, ⟨"ai", "hello"⟩]).getD 2 ⟨"", []⟩ =
        { role := "user", parts := [{ text := chatTemplate "Algebra" "What is X?" }] } := by
  have h := chatContents_shape "What is X?" "Algebra" [⟨"user", "hi"⟩, ⟨"ai", "hello"⟩]
    (by decide)
  refine ⟨h.1, ?_, h.2.2.2⟩
  rw [h.2.2.1 1 (by decide)]
  decide

/-- C4: an empty or absent primary text field (`message` for
`/api/chat`, `topic` for the artifact endpoints) yields the 400
validation response with its descriptive message, and the handler never
reaches the outbound `fetch`. -/
theorem missing_field_400 (creq : ChatRequest) (freq qreq : GenRequest)
    (apiKey : Option String)
    (hm : truthyStr creq.message = false) (hf : truthyStr freq.topic = false)
    (hq : truthyStr qreq.topic = false) :
    chatHandler creq apiKey =
      .respond 400 (some "Missing message in request body")
        (some "Please provide a message to generate AI response")
    ∧ flashHandler freq apiKey = .respond 400 "Topic is required to generate flashcards."
    ∧ quizHandler qreq apiKey = .respond 400 "Topic is required to generate quiz questions."
    ∧ (∀ c, chatHandler creq apiKey ≠ .callUpstream c)
    ∧ (∀ c, flashHandler freq apiKey ≠ .callUpstream c)
    ∧ (∀ c, quizHandler qreq apiKey ≠ .callUpstream c) :=
  ⟨by simp [chatHandler, hm], by simp [flashHandler, hf], by simp [quizHandler, hq],
    fun c => by simp [chatHandler, hm], fun c => by simp [flashHandler, hf],
    fun c => by simp [quizHandler, hq]⟩

/-- C4 witness: empty message and absent topics, with a key present. -/
theorem missing_field_400_witness :
    chatHandler ⟨some "", some "Biology", some []⟩ (some "k") =
      .respond 400 (some "Missing message in request body")
        (some "Please provide a message to generate AI response")
    ∧ flashHandler ⟨none, some []⟩ (some "k") =
        .respond 400 "Topic is required to generate flashcards."
    ∧ quizHandler ⟨none, some []⟩ (some "k") =
        .respond 400 "Topic is required to generate quiz questions." := by
  have h := missing_field_400 ⟨some "", some "Biology", some []⟩ ⟨none, some []⟩
    ⟨none, some []⟩ (some "k") (by decide) (by decide) (by decide)
  exact ⟨h.1, h.2.1, h.2.2.1⟩

/-- C5: with the API key absent from the environment and the primary
field validation passed, every POST endpoint answers the 500
configuration response and never reaches the outbound `fetch`. -/
theorem missing_api_key_500 (creq : ChatRequest) (freq qreq : GenRequest)
    (hm : truthyStr creq.message = true) (hf : truthyStr freq.topic = true)
    (hq : truthyStr qreq.topic = true) :
    chatHandler creq none =
      .respond 500 (some "API key not configured")
        (some "Server configuration error. Please contact administrator.")
    ∧ flashHandler freq none = .respond 500 "API key not configured."
    ∧ quizHandler qreq none = .respond 500 "API key not configured."
    ∧ (∀ c, chatHandler creq none ≠ .callUpstream c)
    ∧ (∀ c, flashHandler freq none ≠ .callUpstream c)
    ∧ (∀ c, quizHandler qreq none ≠ .callUpstream c) :=
  ⟨by simp [chatHandler, hm, truthyStr_none], by simp [flashHandler, hf, truthyStr_none],
    by simp [quizHandler, hq, truthyStr_none],
    fun c => by simp [chatHandler, hm, truthyStr_none],
    fun c => by simp [flashHandler, hf, truthyStr_none],
    fun c => by simp [quizHandler, hq, truthyStr_none]⟩

/-- C5 witness: valid fields, absent key. -/
theorem missing_api_key_500_witness :
    chatHandler ⟨some "hi", none, some []⟩ none =
      .respond 500 (some "API key not configured")
        (some "Server configuration error. Please contact administrator.")
    ∧ flashHandler ⟨some "Biology", some []⟩ none = .respond 500 "API key not configured." := by
  have h := missing_api_key_500 ⟨some "hi", none, some []⟩ ⟨some "Biology", some []⟩
    ⟨some "Biology", some []⟩ (by decide) (by decide) (by decide)
  exact ⟨h.1, h.2.1⟩

/-- C9: a non-empty message with an absent `history` makes
`history.map` throw, so `/api/chat` answers the generic 500 from the
route-level catch, never a 400 validation response. -/
theorem chat_missing_history_500 (m k : String) (topic : Option String)
    (hm : m ≠ "") (hk : k ≠ "") :
    chatHandler ⟨some m, topic, none⟩ (some k) =
      .respond 500 (some "Internal server error")
        (some "An error occurred while processing your request. Please try again.")
    ∧ (∀ e t, chatHandler ⟨some m, topic, none⟩ (some k) ≠ .respond 400 e t) := by
  constructor
  · simp [chatHandler, truthyStr, hm, hk]
  · intro e t
    simp [chatHandler, truthyStr, hm, hk]

/-- C9 witness: concrete message and key, absent history. -/
theorem chat_missing_history_500_witness :
    chatHandler ⟨some "hi", some "Biology", none⟩ (some "k") =
      .respond 500 (some "Internal server error")
        (some "An error occurred while processing your request. Please try again.") :=
  (chat_missing_history_500 "hi" "k" (some "Biology") (by decide) (by decide)).1

/-- C6 counterexample: on upstream status 503 the flashcard endpoint
relays the status and the `error` field but its body carries no `text`
field at all (line 191 of `server.js`), refuting the claim that each
endpoint's upstream-error body is `\x7berror, text\x7d`. -/
theorem upstream_error_body_cex :
    (flashUpstreamPhase 503 none).text = none
    ∧ (quizUpstreamPhase 503 none).text = none
    ∧ (flashUpstreamPhase 503 none).status = 503
    ∧ (flashUpstreamPhase 503 none).error = some "Gemini API error: 503" :=
  ⟨rfl, rfl, rfl, by decide⟩

/-- C6 amended: every non-2xx upstream status is relayed unchanged with
`error` equal to `Gemini API error: <status>` and no retry (the
embedding performs exactly one upstream call per request by
construction); only `/api/chat` additionally carries the user-safe
generic `text` message, while the flashcard and quiz bodies consist of
the `error` field alone. -/
theorem upstream_error_relay (status : Nat) (data : Option UResp)
    (h : statusOk status = false) :
    chatUpstreamPhase status data =
      { status := status, response := none,
        error := some ("Gemini API error: " ++ toString status),
        text := some "Sorry, the AI service is temporarily unavailable. Please try again later." }
    ∧ flashUpstreamPhase status data =
      { status := status, payload := none,
        error := some ("Gemini API error: " ++ toString status), text := none }
    ∧ quizUpstreamPhase status data =
      { status := status, payload := none,
        error := some ("Gemini API error: " ++ toString status), text := none } :=
  ⟨by simp [chatUpstreamPhase, h], by simp [flashUpstreamPhase, h],
    by simp [quizUpstreamPhase, h]⟩

/-- C6 amended witness: upstream status 429. -/
theorem upstream_error_relay_witness :
    chatUpstreamPhase 429 none =
      { status := 429, response := none, error := some "Gemini API error: 429",
        text := some "Sorry, the AI service is temporarily unavailable. Please try again later." }
    ∧ (flashUpstreamPhase 429 none).error = some "Gemini API error: 429" := by
  have h := upstream_error_relay 429 none (by decide)
  refine ⟨h.1, ?_⟩
  rw [h.2.1]
  decide

/-- C10: a 2xx upstream status with an empty or absent `candidates`
array makes the artifact endpoints answer 200 with an empty
`flashcards` (resp. `quizQuestions`) array — an empty success, not an
error. -/
theorem empty_candidates_200 (status : Nat) (data : Option UResp)
    (hs : statusOk status = true)
    (hc : candidatesOf data = none ∨ candidatesOf data = some []) :
    flashUpstreamPhase status data =
      { status := 200, payload := some (.arr []), error := none, text := none }
    ∧ quizUpstreamPhase status data =
      { status := 200, payload := some (.arr []), error := none, text := none } := by
  have hflash : flashExtract data = .ok (.arr []) := by
    cases data with
    | none => rfl
    | some d =>
      simp only [candidatesOf] at hc
      rcases hc with h | h <;> simp [flashExtract, h]
  have hquiz : quizExtract data = .ok (.arr []) := by
    cases data with
    | none => rfl
    | some d =>
      simp only [candidatesOf] at hc
      rcases hc with h | h <;> simp [quizExtract, h]
  constructor
  · simp [flashUpstreamPhase, hs, hflash]
  · simp [quizUpstreamPhase, hs, hquiz]

/-- C10 witness: status 200 with an absent `candidates` array. -/
theorem empty_candidates_200_witness :
    flashUpstreamPhase 200 (some ⟨none⟩) =
      { status := 200, payload := some (.arr []), error := none, text := none }
    ∧ quizUpstreamPhase 200 (some ⟨none⟩) =
      { status := 200, payload := some (.arr []), error := none, text := none } :=
  empty_candidates_200 200 (some ⟨none⟩) (by decide) (Or.inl rfl)

/-- A list is a Boolean prefix of itself followed by anything. -/
theorem isPrefixOf_append_self (p x : List Char) : p.isPrefixOf (p ++ x) = true := by
  induction p with
  | nil => simp [List.isPrefixOf]
  | cons a as ih => simp [List.isPrefixOf, ih]

/-- The first occurrence of a pattern in a list starting with that
pattern is at index zero. -/
theorem findSub_append_self (p x : List Char) : findSub p (p ++ x) = some 0 := by
  cases p with
  | nil =>
    cases x with
    | nil => rfl
    | cons c tl => simp [findSub, isPrefixOf_append_self ([] : List Char) (c :: tl)]
  | cons a as =>
    show findSub (a :: as) (a :: (as ++ x)) = some 0
    rw [findSub]
    rw [show a :: (as ++ x) = (a :: as) ++ x from rfl]
    simp [isPrefixOf_append_self]

/-- C7: the extraction is a two-stage parse.  Stage (a): on a text that
starts a fenced block whose nearest closing delimiter terminates the
non-empty interior `s`, and whose interior parses as a record array,
the result is exactly those records in order.  Stage (b): when no
fenced block matches, the entire raw text is parsed directly. -/
theorem extractStructured_two_stage :
    (∀ (s post : List Char) (rs : List Json),
      findSub fenceClose (s ++ (fenceClose ++ post)) = some s.length →
      s ≠ [] →
      parseJson s = some (.arr rs) →
      extractStructured (fenceOpen ++ (s ++ (fenceClose ++ post))) = some (.arr rs))
    ∧ (∀ (t : List Char) (rs : List Json),
      jsonBlockMatch t = none →
      parseJson t = some (.arr rs) →
      extractStructured t = some (.arr rs)) := by
  constructor
  · intro s post rs hclose hne hparse
    have h0 : findSub fenceOpen (fenceOpen ++ (s ++ (fenceClose ++ post))) = some 0 :=
      findSub_append_self _ _
    have hmatch : jsonBlockMatch (fenceOpen ++ (s ++ (fenceClose ++ post))) = some s := by
      simp only [jsonBlockMatch, h0, List.drop_zero, List.drop_left, hclose, List.take_left]
    rw [extractStructured, hmatch]
    cases s with
    | nil => exact absurd rfl hne
    | cons a tl => simpa using hparse
  · intro t rs hm hp
    rw [extractStructured, hm]
    exact hp

/-- C7 witness: a fenced block holding two flashcard records
round-trips to exactly those two records in order, and an unfenced
array parses directly. -/
theorem extractStructured_two_stage_witness :
    extractStructured
      (fenceOpen ++
        (("[\x7b\"question\": \"Q1\", \"answer\": \"A1\"\x7d, \x7b\"question\": \"Q2\", \"answer\": \"A2\"\x7d]").toList ++
          (fenceClose ++ []))) =
      some (.arr [.obj [("question", .str "Q1"), ("answer", .str "A1")],
        .obj [("question", .str "Q2"), ("answer", .str "A2")]])
    ∧ extractStructured "[1, 2]".toList = some (.arr [.num 1, .num 2]) := by
  constructor
  · exact extractStructured_two_stage.1
      ("[\x7b\"question\": \"Q1\", \"answer\": \"A1\"\x7d, \x7b\"question\": \"Q2\", \"answer\": \"A2\"\x7d]").toList
      []
      [.obj [("question", .str "Q1"), ("answer", .str "A1")],
        .obj [("question", .str "Q2"), ("answer", .str "A2")]]
      (by decide) (by decide) rfl
  · exact extractStructured_two_stage.2 "[1, 2]".toList [.num 1, .num 2] (by decide) rfl

/-- C8: an upstream text that fails both parse stages makes the
flashcard and quiz endpoints answer 500 with their distinct
`AI generated malformed ...` messages — no partial result and, by the
single-call construction of the embedding, no retry. -/
theorem parse_failure_500 (s : String) (fr : Option String) (cs : List Candidate)
    (h : extractStructured s.toList = none) :
    flashUpstreamPhase 200 (some ⟨some (⟨some ⟨some [⟨some s⟩]⟩, fr⟩ :: cs)⟩) =
      { status := 500, payload := none,
        error := some "AI generated malformed flashcards. Please try again.", text := none }
    ∧ quizUpstreamPhase 200 (some ⟨some (⟨some ⟨some [⟨some s⟩]⟩, fr⟩ :: cs)⟩) =
      { status := 500, payload := none,
        error := some "AI generated malformed quiz questions. Please try again.", text := none } := by
  have h' : extractStructured s.data = none := h
  constructor
  · simp [flashUpstreamPhase, flashExtract, h', show statusOk 200 = true from rfl]
  · simp [quizUpstreamPhase, quizExtract, h', show statusOk 200 = true from rfl]

/-- C8 witness: prose that is not JSON in either stage. -/
theorem parse_failure_500_witness :
    flashUpstreamPhase 200 (some ⟨some [⟨some ⟨some [⟨some "Sorry, here are your cards"⟩]⟩, none⟩]⟩) =
      { status := 500, payload := none,
        error := some "AI generated malformed flashcards. Please try again.", text := none } :=
  (parse_failure_500 "Sorry, here are your cards" none [] rfl).1

/-- C1 witness: the three branches at concrete inputs. -/
theorem extractText_priority_chain_witness :
    extractText (some ⟨some [⟨some ⟨some [⟨some "hello"⟩]⟩, none⟩]⟩) = "hello"
    ∧ extractText (some ⟨some [⟨none, some "SAFETY"⟩]⟩) = "AI response blocked: SAFETY"
    ∧ extractText (some ⟨some []⟩) = "No response from AI" := by
  refine ⟨?_, ?_, ?_⟩
  · exact (extractText_priority_chain (some ⟨some [⟨some ⟨some [⟨some "hello"⟩]⟩, none⟩]⟩)).1
      ⟨some ⟨some [⟨some "hello"⟩]⟩, none⟩ [] ⟨some "hello"⟩ rfl rfl
  · exact (extractText_priority_chain (some ⟨some [⟨none, some "SAFETY"⟩]⟩)).2.1
      ⟨none, some "SAFETY"⟩ [] "SAFETY" rfl rfl rfl (by decide)
  · exact (extractText_priority_chain (some ⟨some []⟩)).2.2.2 (Or.inr rfl)

end Studydude
